import Mathlib

/-!
Shallow embedding of the inverse-distance-weighting (IDW) core of the
air-quality-prediction repository (`src/analysis/idw_interpolation.py`),
together with proofs of the spec claims about it.

Modelling conventions:
* A pandas DataFrame row is an `Obs` record; a DataFrame is an ordered
  `List Obs` (pandas default `RangeIndex` makes row identity positional).
* Python floats are idealised as rationals `ℚ`, except that the non-finite
  results that the source can actually produce (NaN from `0.0/0.0` and from
  `inf/inf`) are represented by the explicit `PyFloat.nan` constructor.
* The geodesic distance of `geopy` is an uninterpreted parameter
  `dist : ℚ × ℚ → ℚ × ℚ → ℚ`; every theorem is universally quantified over
  it, and facts such as `geodesic(p, p) = 0` enter as hypotheses.
* A raised Python exception is an `Except.error`; a normal return is
  `Except.ok`.
-/

namespace AirQuality

/-- One sensor reading, mirroring the columns the core reads from the
DataFrame produced by the data-collection layer: `parameter`, `year`,
`month`, `day`, `hour`, `latitude`, `longitude`, `value` (plus the
informational `unit` string that the core never inspects). -/
structure Obs where
  parameter : String
  year : Int
  month : Int
  day : Int
  hour : Int
  latitude : ℚ
  longitude : ℚ
  value : ℚ
  unit : String
deriving DecidableEq, Repr

/-- The boolean row mask of `PredictPollutant` / `ParityPlot`:
`(df['parameter'] == pollutant) & (df['year'] == year) & ... & (df['hour'] == hour)`,
an exact equality filter on the pollutant identifier and all four timestamp
fields. -/
def matchesQuery (pollutant : String) (y m d hr : Int) (o : Obs) : Bool :=
  o.parameter == pollutant && o.year == y && o.month == m && o.day == d && o.hour == hr

/-- An observation augmented with its distance (in km) to the target
location, i.e. a row of `target_df` after the `distance_km` column has been
added. -/
structure ScoredObs where
  obs : Obs
  distance_km : ℚ
deriving DecidableEq, Repr

/-- `compute_distance` applied to a row: score an observation with
`dist(target_location, (row.latitude, row.longitude))`. -/
def scoreObs (dist : ℚ × ℚ → ℚ × ℚ → ℚ) (target : ℚ × ℚ) (o : Obs) : ScoredObs :=
  ⟨o, dist target (o.latitude, o.longitude)⟩

/-- The comparison used to order rows by the `distance_km` column. -/
def distLE (a b : ScoredObs) : Prop :=
  a.distance_km ≤ b.distance_km

instance : DecidableRel distLE := fun a b => inferInstanceAs (Decidable (a.distance_km ≤ b.distance_km))

instance : IsTotal ScoredObs distLE := ⟨fun a b => le_total a.distance_km b.distance_km⟩

instance : IsTrans ScoredObs distLE := ⟨fun _ _ _ h h' => le_trans h h'⟩

/-- `target_df.nsmallest(n, 'distance_km')` (pandas, `keep='first'`): the
`n` rows with the smallest `distance_km`, in ascending order; among equal
values the first occurrences are prioritised and kept in their original
order (pandas implements the selection with a stable `mergesort` argsort of
the column values).  Modelled as a stable insertion sort by distance
followed by `take n`. -/
def nsmallestByDistance (n : ℕ) (l : List ScoredObs) : List ScoredObs :=
  (l.insertionSort distLE).take n

/-- The nearest-sensor selection inside `PredictPollutant`: filter the
dataset to the rows matching the pollutant/timestamp query, score each
surviving row with its distance to the target, and keep the `n` nearest
(`select_nearest` in the spec's vocabulary). -/
def selectNearest (dist : ℚ × ℚ → ℚ × ℚ → ℚ) (df : List Obs) (target : ℚ × ℚ)
    (pollutant : String) (y m d hr : Int) (n : ℕ) : List ScoredObs :=
  nsmallestByDistance n ((df.filter (matchesQuery pollutant y m d hr)).map (scoreObs dist target))

/-- A Python float result: either an actual (idealised, rational) number or
the non-finite `nan` that the source's weighting formula produces from
`0.0/0.0` (empty selection) and `inf/inf` (a zero distance). -/
inductive PyFloat where
  | num : ℚ → PyFloat
  | nan : PyFloat
deriving DecidableEq, Repr

/-- A raised Python exception.  The core can raise pandas' generic
`ValueError`; the model does not distinguish messages. -/
inductive PyErr where
  | valueError : PyErr
deriving DecidableEq, Repr

instance {ε α : Type} [DecidableEq ε] [DecidableEq α] : DecidableEq (Except ε α) := fun a b =>
  match a, b with
  | Except.ok x, Except.ok y =>
    if h : x = y then Decidable.isTrue (by rw [h])
    else Decidable.isFalse (fun hc => h (Except.ok.inj hc))
  | Except.error x, Except.error y =>
    if h : x = y then Decidable.isTrue (by rw [h])
    else Decidable.isFalse (fun hc => h (Except.error.inj hc))
  | Except.ok _, Except.error _ => Decidable.isFalse (fun hc => Except.noConfusion hc)
  | Except.error _, Except.ok _ => Decidable.isFalse (fun hc => Except.noConfusion hc)

/-- The weight of one selected row in `idw_prediction`:
`1 / (df['distance_km'] ** power)`. -/
def idwWeight (power : ℕ) (s : ScoredObs) : ℚ :=
  1 / s.distance_km ^ power

/-- `idw_prediction(df)` of the source:
`weights = 1 / df['distance_km'] ** power`,
`(df['value'] * weights).sum() / weights.sum()`.

Python float semantics of the two degenerate cases, reflected as `nan`:
* some selected distance has `distance ** power == 0.0` (a zero distance
  with positive power): its weight is `1/0.0 = inf` (numpy emits only a
  `RuntimeWarning`), the weight sum is `inf`, the weighted-value sum is
  `±inf` or `nan`, and the final ratio is `nan`;
* the weight sum is `0.0`, which for the nonnegative distances produced by
  `geodesic` happens exactly when the selection is empty: the ratio is
  `0.0/0.0 = nan`. -/
def idw_prediction (sel : List ScoredObs) (power : ℕ) : PyFloat :=
  if sel.any (fun s => decide (s.distance_km ^ power = 0)) then PyFloat.nan
  else if (sel.map (idwWeight power)).sum = 0 then PyFloat.nan
  else PyFloat.num ((sel.map (fun s => s.obs.value * idwWeight power s)).sum / (sel.map (idwWeight power)).sum)

/-- `PredictPollutant(df, target_location, n_sensors, pollutant, year,
month, day, hour, idw_power)`.

When the pollutant/timestamp filter yields zero rows the source raises:
`target_df.apply(compute_distance, axis=1)` on the empty frame takes
pandas' `apply_empty_result` path, which probes the callback on a row of
NaNs to detect a reduction; `geopy ≥ 2.0` rejects non-finite coordinates
(`Point` raises `ValueError: Point coordinates must be finite`), pandas
swallows that probe failure and `apply` returns a copy of the empty
multi-column frame, so the assignment
`target_df['distance_km'] = <empty DataFrame>` raises
`ValueError: Cannot set a DataFrame with multiple columns to the single
column distance_km`.  Hence the empty-filter case is `Except.error` here.

Otherwise the distances are computed row-wise, the `n_sensors` nearest rows
are selected and the IDW estimate is returned normally. -/
def PredictPollutant (dist : ℚ × ℚ → ℚ × ℚ → ℚ) (df : List Obs) (target : ℚ × ℚ)
    (n : ℕ) (pollutant : String) (y m d hr : Int) (power : ℕ) : Except PyErr PyFloat :=
  let filtered := df.filter (matchesQuery pollutant y m d hr)
  if filtered.isEmpty then Except.error PyErr.valueError
  else Except.ok (idw_prediction (nsmallestByDistance n (filtered.map (scoreObs dist target))) power)

/-- One iteration of the leave-one-out loop of `ParityPlot` at row position
`i` of the filtered frame: drop the row (`df_temp = filtered_df.drop(index=idx)`,
`inplace=False`, so a fresh frame), re-run `PredictPollutant` with the row's
coordinates as target, and on success record the pair
`(row['value'], prediction)`.  The whole body sits in
`try: ... except Exception: print(...)`: a raised failure yields no pair
(`none`) and the loop moves on to the next row. -/
def parityStep (dist : ℚ × ℚ → ℚ × ℚ → ℚ) (pollutant : String) (y m d hr : Int)
    (n power : ℕ) (filtered : List Obs) (i : ℕ) : Option (ℚ × PyFloat) :=
  match filtered.get? i with
  | none => none
  | some o =>
    match PredictPollutant dist (filtered.eraseIdx i) (o.latitude, o.longitude) n pollutant y m d hr power with
    | Except.ok p => some (o.value, p)
    | Except.error _ => none

/-- The `(true_value, predicted_value)` pairs collected by `ParityPlot`:
filter the dataset with the pollutant/timestamp mask, then run the
leave-one-out loop over the filtered rows in dataset order. -/
def parityPairs (dist : ℚ × ℚ → ℚ × ℚ → ℚ) (df : List Obs) (pollutant : String)
    (y m d hr : Int) (n power : ℕ) : List (ℚ × PyFloat) :=
  (List.range (df.filter (matchesQuery pollutant y m d hr)).length).filterMap
    (parityStep dist pollutant y m d hr n power (df.filter (matchesQuery pollutant y m d hr)))

/-- `sklearn.metrics.mean_absolute_error(y_true, y_pred)` as called by
`ParityPlot` on the collected pairs.  sklearn's input validation raises
`ValueError` on an empty sample (`Found array with 0 sample(s)`), on
inconsistent lengths, and on non-finite entries (`Input contains NaN`);
otherwise the mean of the absolute errors is returned.  (`ParityPlot` in
fact already aborts one line earlier when zero pairs were collected:
`plt.plot([min(true_vals), ...])` raises `ValueError: min() arg is an
empty sequence`; either way the empty case is an explicit `ValueError`,
never a silently returned NaN metric.) -/
def mean_absolute_error (yTrue : List ℚ) (yPred : List PyFloat) : Except PyErr ℚ :=
  if yTrue.isEmpty || yPred.isEmpty then Except.error PyErr.valueError
  else if yTrue.length ≠ yPred.length then Except.error PyErr.valueError
  else if yPred.any (fun p => decide (p = PyFloat.nan)) then Except.error PyErr.valueError
  else
    Except.ok (((yTrue.zip (yPred.map (fun p => match p with | PyFloat.num q => q | PyFloat.nan => 0))).map
      (fun pr => |pr.1 - pr.2|)).sum / (yTrue.length : ℚ))

/-!
### A heap model for the frame claim

To state that the core never mutates the caller's DataFrame we make pandas
object identity explicit: a heap is a list of frames, a frame id is an
index into it.  Each pandas operation of the source is classified per the
pandas semantics it actually has: boolean-mask indexing, `.copy()`,
`nsmallest` and `drop` (with the default `inplace=False`) allocate fresh
frames; the single column assignment `target_df['distance_km'] = ...`
mutates, in place, the frame it is applied to.
-/

/-- A pandas DataFrame as the core sees it: the observation rows plus the
optional derived `distance_km` column. -/
structure Frame where
  rows : List Obs
  distCol : Option (List ℚ)
deriving DecidableEq, Repr

/-- Read the frame stored at an id (defaulting to an empty frame for a
dangling id, which the embedded code never produces). -/
def heapGet (h : List Frame) (i : ℕ) : Frame :=
  (h.get? i).getD ⟨[], none⟩

/-- Allocate a fresh frame, returning the grown heap and the new id. -/
def heapAlloc (h : List Frame) (f : Frame) : List Frame × ℕ :=
  (h ++ [f], h.length)

/-- In-place update of the frame stored at an id. -/
def heapSet (h : List Frame) (i : ℕ) (f : Frame) : List Frame :=
  h.set i f

/-- `PredictPollutant` with pandas object identity made explicit.  Result
value as in `PredictPollutant`, threaded with the heap:
* `filtered_df = df[mask]` allocates;
* `target_df = filtered_df.copy()` allocates;
* on the empty filter the distance-column assignment raises before any
  mutation (see `PredictPollutant`), so the heap is returned as grown so far;
* `target_df['distance_km'] = target_df.apply(...)` updates `target_df`
  in place — the only mutation in the whole core, and it hits the copy;
* `nearest = target_df.nsmallest(...)` allocates. -/
def PredictPollutantHeap (dist : ℚ × ℚ → ℚ × ℚ → ℚ) (heap : List Frame) (dfId : ℕ)
    (target : ℚ × ℚ) (n : ℕ) (pollutant : String) (y m d hr : Int) (power : ℕ) :
    Except PyErr PyFloat × List Frame :=
  let filtered := (heapGet heap dfId).rows.filter (matchesQuery pollutant y m d hr)
  let p1 := heapAlloc heap ⟨filtered, none⟩
  let p2 := heapAlloc p1.1 (heapGet p1.1 p1.2)
  if filtered.isEmpty then (Except.error PyErr.valueError, p2.1)
  else
    let scored := filtered.map (scoreObs dist target)
    let h3 := heapSet p2.1 p2.2 ⟨filtered, some (scored.map (fun s => s.distance_km))⟩
    let nearest := nsmallestByDistance n scored
    let p4 := heapAlloc h3 ⟨nearest.map (fun s => s.obs), some (nearest.map (fun s => s.distance_km))⟩
    (Except.ok (idw_prediction nearest power), p4.1)

/-- The leave-one-out loop of `ParityPlot` with the heap threaded through:
for each row index, `df_temp = filtered_df.drop(index=idx)` allocates a
fresh frame and `PredictPollutant` runs on it. -/
def parityLoopHeap (dist : ℚ × ℚ → ℚ × ℚ → ℚ) (pollutant : String) (y m d hr : Int)
    (n power : ℕ) (filtered : List Obs) :
    List ℕ → List Frame → List (ℚ × PyFloat) × List Frame
  | [], heap => ([], heap)
  | i :: rest, heap =>
    match filtered.get? i with
    | none => parityLoopHeap dist pollutant y m d hr n power filtered rest heap
    | some o =>
      let p1 := heapAlloc heap ⟨filtered.eraseIdx i, none⟩
      let r := PredictPollutantHeap dist p1.1 p1.2 (o.latitude, o.longitude) n pollutant y m d hr power
      let tail := parityLoopHeap dist pollutant y m d hr n power filtered rest r.2
      ((match r.1 with
        | Except.ok p => (o.value, p) :: tail.1
        | Except.error _ => tail.1), tail.2)

/-- `ParityPlot` with the heap threaded through: filter the caller's frame
(`filtered_df = df[mask]` allocates), then run the leave-one-out loop over
the filtered rows. -/
def ParityPlotHeap (dist : ℚ × ℚ → ℚ × ℚ → ℚ) (heap : List Frame) (dfId : ℕ)
    (pollutant : String) (y m d hr : Int) (n power : ℕ) :
    List (ℚ × PyFloat) × List Frame :=
  let filtered := (heapGet heap dfId).rows.filter (matchesQuery pollutant y m d hr)
  let p1 := heapAlloc heap ⟨filtered, none⟩
  parityLoopHeap dist pollutant y m d hr n power filtered (List.range filtered.length) p1.1

/-- Rescaling every distance by the same factor `c`, as a row
transformation (the `distance_km` column is multiplied by `c`, the
observation is untouched). -/
def scaleDist (c : ℚ) (s : ScoredObs) : ScoredObs :=
  ⟨s.obs, c * s.distance_km⟩

/-- `h'` is the heap `h` after some core steps: the heap can only have
grown, and every frame the caller already held is unchanged. -/
def HeapExtends (h h' : List Frame) : Prop :=
  h.length ≤ h'.length ∧ ∀ i < h.length, h'.get? i = h.get? i

/-!
### Concrete sample data (used by the witnesses and counterexamples)

A miniature dataset in the shape produced by the data-collection layer:
three `pm25` readings at the same timestamp.  `sqDist` is a concrete
stand-in for the geodesic distance (squared planar distance): like
`geodesic` it is nonnegative and vanishes on coinciding points, which is
all the witnesses use.
-/

def sqDist (p q : ℚ × ℚ) : ℚ :=
  (p.1 - q.1) ^ 2 + (p.2 - q.2) ^ 2

def pm25 : String := "pm25"

def o3 : String := "o3"

def ppm : String := "ppm"

def obsA : Obs :=
  { parameter := pm25, year := 2020, month := 1, day := 1, hour := 8
    latitude := 39, longitude := -77, value := 5, unit := ppm }

def obsB : Obs :=
  { parameter := pm25, year := 2020, month := 1, day := 1, hour := 8
    latitude := 40, longitude := -76, value := 9, unit := ppm }

def obsC : Obs :=
  { parameter := pm25, year := 2020, month := 1, day := 1, hour := 8
    latitude := 38, longitude := -75, value := 7, unit := ppm }

def dfSample : List Obs := [obsA, obsB, obsC]

def dfSingle : List Obs := [obsA]

def heapSample : List Frame := [⟨dfSample, none⟩]

/-!
### Lemmas about the nearest-sensor selection
-/

/-- The rows at a fixed distance `δ` in `orderedInsert distLE a l`: `a` is
inserted before every row whose distance is ≥ its own, so if `a` is at
distance `δ` it heads the `δ`-rows, otherwise the `δ`-rows are untouched. -/
lemma filter_dist_orderedInsert (δ : ℚ) (a : ScoredObs) (l : List ScoredObs) :
    (l.orderedInsert distLE a).filter (fun s => decide (s.distance_km = δ)) =
      if a.distance_km = δ then a :: l.filter (fun s => decide (s.distance_km = δ))
      else l.filter (fun s => decide (s.distance_km = δ)) := by
  rw [List.orderedInsert_eq_take_drop]
  have htake : (l.takeWhile fun b => decide ¬distLE a b).filter
      (fun s => decide (s.distance_km = δ)) = [] ∨ ¬ a.distance_km = δ := by
    by_cases haδ : a.distance_km = δ
    · left
      rw [List.filter_eq_nil_iff]
      intro b hb
      have hblt : ¬ distLE a b := by
        have := List.mem_takeWhile_imp hb
        simpa using this
      have : b.distance_km < a.distance_km := lt_of_not_le hblt
      simp only [decide_eq_true_eq]
      intro hbδ
      rw [hbδ, haδ] at this
      exact lt_irrefl _ this
    · right; exact haδ
  by_cases haδ : a.distance_km = δ
  · rcases htake with hnil | hne
    · rw [if_pos haδ, List.filter_append, hnil, List.nil_append, List.filter_cons,
        if_pos (by simpa using haδ)]
      congr 1
      conv_rhs => rw [← List.takeWhile_append_dropWhile (fun b => decide (¬ distLE a b)) l]
      rw [List.filter_append, hnil, List.nil_append]
    · exact absurd haδ hne
  · rw [if_neg haδ, List.filter_append, List.filter_cons, if_neg (by simpa using haδ)]
    conv_rhs => rw [← List.takeWhile_append_dropWhile (fun b => decide (¬ distLE a b)) l]
    rw [List.filter_append]

/-- Stability of the modelled `nsmallest` sort: for every distance `δ`, the
rows at distance `δ` come out of the sort exactly as they occur (in
particular, in their original order) in the input. -/
lemma filter_dist_insertionSort (δ : ℚ) (l : List ScoredObs) :
    (l.insertionSort distLE).filter (fun s => decide (s.distance_km = δ)) =
      l.filter (fun s => decide (s.distance_km = δ)) := by
  induction l with
  | nil => rfl
  | cons a l ih =>
    rw [List.insertionSort, filter_dist_orderedInsert, List.filter_cons]
    by_cases haδ : a.distance_km = δ
    · rw [if_pos haδ, if_pos (by simpa using haδ), ih]
    · rw [if_neg haδ, if_neg (by simpa using haδ), ih]

/-- Every row selected by `selectNearest` is (the scoring of) a row of the
dataset that matches the pollutant/timestamp filter. -/
lemma mem_selectNearest {dist : ℚ × ℚ → ℚ × ℚ → ℚ} {df : List Obs} {target : ℚ × ℚ}
    {pollutant : String} {y m d hr : Int} {n : ℕ} {s : ScoredObs}
    (hs : s ∈ selectNearest dist df target pollutant y m d hr n) :
    ∃ o ∈ df.filter (matchesQuery pollutant y m d hr), s = scoreObs dist target o := by
  have h1 : s ∈ ((df.filter (matchesQuery pollutant y m d hr)).map
      (scoreObs dist target)).insertionSort distLE := List.mem_of_mem_take hs
  rw [List.mem_insertionSort, List.mem_map] at h1
  obtain ⟨o, ho, rfl⟩ := h1
  exact ⟨o, ho, rfl⟩

/-- **C1**.  For every dataset and query (over an arbitrary geodesic
distance function), the nearest-sensor selection inside `PredictPollutant`
returns at most `n_sensors` rows; its length is exactly
`min n_sensors (number of rows matching the pollutant/timestamp filter)`;
every returned row matches the query's pollutant identifier and all four
timestamp fields; and the rows are sorted by non-decreasing distance. -/
theorem select_nearest_spec (dist : ℚ × ℚ → ℚ × ℚ → ℚ) (df : List Obs) (target : ℚ × ℚ)
    (pollutant : String) (y m d hr : Int) (n : ℕ) :
    (selectNearest dist df target pollutant y m d hr n).length ≤ n ∧
    (selectNearest dist df target pollutant y m d hr n).length =
      min n (df.filter (matchesQuery pollutant y m d hr)).length ∧
    (∀ s ∈ selectNearest dist df target pollutant y m d hr n,
      matchesQuery pollutant y m d hr s.obs = true) ∧
    List.Sorted distLE (selectNearest dist df target pollutant y m d hr n) := by
  refine ⟨?_, ?_, ?_, ?_⟩
  · simp [selectNearest, nsmallestByDistance]
  · simp [selectNearest, nsmallestByDistance]
  · intro s hs
    obtain ⟨o, ho, rfl⟩ := mem_selectNearest hs
    exact (List.mem_filter.1 ho).2
  · exact (List.sorted_insertionSort distLE _).sublist (List.take_sublist _ _)

/-- **C8**.  Ties in distance are broken stably and deterministically: for
every distance `δ`, the selected rows at distance `δ` form a prefix of the
matching dataset rows at distance `δ` taken in original dataset order (so
among equal-distance rows the original order is preserved and the earliest
rows are the ones selected); and — the selection being a pure function of
its arguments — repeated identical calls return the same rows. -/
theorem select_nearest_stable_ties (dist : ℚ × ℚ → ℚ × ℚ → ℚ) (df : List Obs) (target : ℚ × ℚ)
    (pollutant : String) (y m d hr : Int) (n : ℕ) (δ : ℚ) :
    ((selectNearest dist df target pollutant y m d hr n).filter
        (fun s => decide (s.distance_km = δ)) <+:
      ((df.filter (matchesQuery pollutant y m d hr)).map (scoreObs dist target)).filter
        (fun s => decide (s.distance_km = δ))) ∧
    selectNearest dist df target pollutant y m d hr n =
      selectNearest dist df target pollutant y m d hr n := by
  refine ⟨?_, rfl⟩
  have hpre : (selectNearest dist df target pollutant y m d hr n).filter
      (fun s => decide (s.distance_km = δ)) <+:
      (((df.filter (matchesQuery pollutant y m d hr)).map
        (scoreObs dist target)).insertionSort distLE).filter
        (fun s => decide (s.distance_km = δ)) :=
    List.IsPrefix.filter _ (List.take_prefix _ _)
  rwa [filter_dist_insertionSort] at hpre

/-!
### Lemmas about the IDW estimator
-/

/-- With a non-empty selection all of whose distances are strictly
positive, neither degenerate branch of `idw_prediction` fires: the result
is the plain normalized weighted average, and the weight sum is strictly
positive. -/
lemma idw_prediction_eq_of_pos {sel : List ScoredObs} {power : ℕ}
    (hne : sel ≠ []) (hpos : ∀ s ∈ sel, 0 < s.distance_km) :
    idw_prediction sel power =
      PyFloat.num ((sel.map (fun s => s.obs.value * idwWeight power s)).sum /
        (sel.map (idwWeight power)).sum) ∧
    0 < (sel.map (idwWeight power)).sum := by
  have hwpos : ∀ w ∈ sel.map (idwWeight power), 0 < w := by
    intro w hw
    obtain ⟨s, hs, rfl⟩ := List.mem_map.1 hw
    exact div_pos one_pos (pow_pos (hpos s hs) power)
  have hsum : 0 < (sel.map (idwWeight power)).sum :=
    List.sum_pos _ hwpos (by simpa using hne)
  have hany : sel.any (fun s => decide (s.distance_km ^ power = 0)) = false := by
    simp only [List.any_eq_false, decide_eq_true_eq]
    intro s hs
    exact ne_of_gt (pow_pos (hpos s hs) power)
  refine ⟨?_, hsum⟩
  rw [idw_prediction, hany, if_neg (by simp), if_neg (ne_of_gt hsum)]

/-- If every selected sensor reports the same value `v`, the normalized
weighted average collapses to `v`. -/
lemma idw_prediction_const {sel : List ScoredObs} {power : ℕ} {v : ℚ}
    (hne : sel ≠ []) (hpos : ∀ s ∈ sel, 0 < s.distance_km)
    (hv : ∀ s ∈ sel, s.obs.value = v) :
    idw_prediction sel power = PyFloat.num v := by
  obtain ⟨heq, hsum⟩ := @idw_prediction_eq_of_pos _ power hne hpos
  rw [heq]
  have hnum : (sel.map (fun s => s.obs.value * idwWeight power s)).sum =
      v * (sel.map (idwWeight power)).sum := by
    rw [← List.sum_map_mul_left]
    congr 1
    exact List.map_congr_left (fun s hs => by rw [hv s hs])
  rw [hnum, mul_div_assoc, div_self (ne_of_gt hsum), mul_one]

/-- **C5**.  If all selected sensors (non-empty, strictly positive
distances) report the same value `v`, the IDW estimate is exactly `v`; in
particular, running the selector and then the estimator
(`PredictPollutant`) on a dataset whose filter matches exactly one
observation, with `n_sensors = 1` and the target at positive distance from
that sensor, returns that observation's own value unchanged. -/
theorem idw_constant_values_and_roundtrip :
    (∀ (sel : List ScoredObs) (power : ℕ) (v : ℚ), sel ≠ [] →
      (∀ s ∈ sel, 0 < s.distance_km) → (∀ s ∈ sel, s.obs.value = v) →
      idw_prediction sel power = PyFloat.num v) ∧
    (∀ (dist : ℚ × ℚ → ℚ × ℚ → ℚ) (df : List Obs) (target : ℚ × ℚ)
      (pollutant : String) (y m d hr : Int) (power : ℕ) (o : Obs),
      df.filter (matchesQuery pollutant y m d hr) = [o] →
      0 < dist target (o.latitude, o.longitude) →
      PredictPollutant dist df target 1 pollutant y m d hr power =
        Except.ok (PyFloat.num o.value)) := by
  constructor
  · intro sel power v hne hpos hv
    exact idw_prediction_const hne hpos hv
  · intro dist df target pollutant y m d hr power o hfilter hdist
    rw [PredictPollutant]
    simp only [hfilter, List.isEmpty_cons, if_neg]
    have hsel : nsmallestByDistance 1 ([o].map (scoreObs dist target)) =
        [scoreObs dist target o] := rfl
    rw [hsel, @idw_prediction_const _ power o.value (by simp) ?_ ?_]
    · simp
    · intro s hs
      rw [List.mem_singleton] at hs
      rw [hs]
      exact hdist
    · intro s hs
      rw [List.mem_singleton] at hs
      rw [hs]
      rfl

/-- **C6**.  For a non-empty selection with strictly positive distances and
any `c > 0`, multiplying every distance by `c` leaves the IDW estimate
unchanged, for any fixed power: the estimate depends only on relative
distances (each weight is rescaled by the common factor `c ^ -power`,
which cancels in the normalization). -/
theorem idw_scale_invariance (sel : List ScoredObs) (power : ℕ) (c : ℚ)
    (hne : sel ≠ []) (hpos : ∀ s ∈ sel, 0 < s.distance_km) (hc : 0 < c) :
    idw_prediction (sel.map (scaleDist c)) power = idw_prediction sel power := by
  have hne' : sel.map (scaleDist c) ≠ [] := by simpa using hne
  have hpos' : ∀ s ∈ sel.map (scaleDist c), 0 < s.distance_km := by
    intro s hs
    obtain ⟨t, ht, rfl⟩ := List.mem_map.1 hs
    exact mul_pos hc (hpos t ht)
  obtain ⟨heq', _⟩ := @idw_prediction_eq_of_pos _ power hne' hpos'
  obtain ⟨heq, hsum⟩ := @idw_prediction_eq_of_pos _ power hne hpos
  rw [heq', heq]
  have hw : (sel.map (scaleDist c)).map (idwWeight power) =
      sel.map (fun s => (1 / c ^ power) * idwWeight power s) := by
    rw [List.map_map]
    refine List.map_congr_left (fun s _ => ?_)
    simp only [Function.comp, idwWeight, scaleDist, mul_pow, one_div, mul_inv]
  have hv : (sel.map (scaleDist c)).map (fun s => s.obs.value * idwWeight power s) =
      sel.map (fun s => (1 / c ^ power) * (s.obs.value * idwWeight power s)) := by
    rw [List.map_map]
    refine List.map_congr_left (fun s _ => ?_)
    simp only [Function.comp, idwWeight, scaleDist, mul_pow, one_div, mul_inv]
    ring
  rw [hw, hv, List.sum_map_mul_left, List.sum_map_mul_left,
    mul_div_mul_left _ _ (by positivity)]

/-- **C10**.  For a non-empty selection with strictly positive distances,
the IDW estimate is an actual number lying within the closed interval of
the observed values: it is at least every lower bound and at most every
upper bound of the selected values (equivalently, it lies in
`[min value, max value]`), being a convex combination with strictly
positive normalized weights. -/
theorem idw_within_observed_bounds (sel : List ScoredObs) (power : ℕ)
    (hne : sel ≠ []) (hpos : ∀ s ∈ sel, 0 < s.distance_km) :
    ∃ q, idw_prediction sel power = PyFloat.num q ∧
      (∀ lo, (∀ s ∈ sel, lo ≤ s.obs.value) → lo ≤ q) ∧
      (∀ hi, (∀ s ∈ sel, s.obs.value ≤ hi) → q ≤ hi) := by
  obtain ⟨heq, hsum⟩ := @idw_prediction_eq_of_pos _ power hne hpos
  refine ⟨_, heq, ?_, ?_⟩
  · intro lo hlo
    rw [le_div_iff₀ hsum, ← List.sum_map_mul_left]
    refine List.sum_le_sum (fun s hs => ?_)
    exact mul_le_mul_of_nonneg_right (hlo s hs)
      (le_of_lt (div_pos one_pos (pow_pos (hpos s hs) power)))
  · intro hi hhi
    rw [div_le_iff₀ hsum, ← List.sum_map_mul_left]
    refine List.sum_le_sum (fun s hs => ?_)
    exact mul_le_mul_of_nonneg_right (hhi s hs)
      (le_of_lt (div_pos one_pos (pow_pos (hpos s hs) power)))

/-!
### The degenerate query paths
-/

/-- **C2**.  For every dataset and query whose pollutant/timestamp filter
yields zero matching rows, `PredictPollutant` raises — the pandas
`ValueError` described at `PredictPollutant` — rather than returning any
numeric value (the spec's `NoMatchingData` failure). -/
theorem predict_no_matching_data (dist : ℚ × ℚ → ℚ × ℚ → ℚ) (df : List Obs) (target : ℚ × ℚ)
    (n : ℕ) (pollutant : String) (y m d hr : Int) (power : ℕ)
    (hempty : (df.filter (matchesQuery pollutant y m d hr)).isEmpty = true) :
    PredictPollutant dist df target n pollutant y m d hr power = Except.error PyErr.valueError := by
  simp [PredictPollutant, hempty]

/-- Witness for C2: on the three-row sample dataset, a query for the
pollutant `o3` (only `pm25` was measured) matches nothing and the
single-point estimate is an error, not a number. -/
theorem predict_no_matching_data_witness :
    (dfSample.filter (matchesQuery o3 2020 1 1 8)).isEmpty = true ∧
    PredictPollutant sqDist dfSample (39, -76) 4 o3 2020 1 1 8 2 = Except.error PyErr.valueError :=
  ⟨by decide, predict_no_matching_data sqDist dfSample (39, -76) 4 o3 2020 1 1 8 2 (by decide)⟩

/-- Counterexample to C3 as stated: with the target exactly at `obsA`'s
coordinates (distance exactly zero), `PredictPollutant` does **not** fail
explicitly — it returns normally, with the non-numeric value NaN (in the
source, the zero distance gives an `inf` weight and the normalization
`inf/inf` evaluates to `nan`; numpy only emits `RuntimeWarning`s). -/
theorem predict_degenerate_distance_counterexample :
    PredictPollutant sqDist dfSample (39, -77) 2 pm25 2020 1 1 8 2 = Except.ok PyFloat.nan := by
  norm_num [PredictPollutant, selectNearest, nsmallestByDistance, dfSample, obsA, obsB, obsC,
    matchesQuery, pm25, scoreObs, sqDist, List.insertionSort, List.orderedInsert, distLE,
    idw_prediction, idwWeight]

/-- **C3 (amended)**.  For every query with a positive power for which some
selected observation lies at distance exactly zero from the target,
`PredictPollutant` silently returns NaN: it neither raises an explicit
failure (the spec's `DegenerateDistance`) nor returns infinity. -/
theorem predict_degenerate_distance_nan (dist : ℚ × ℚ → ℚ × ℚ → ℚ) (df : List Obs)
    (target : ℚ × ℚ) (n : ℕ) (pollutant : String) (y m d hr : Int) (power : ℕ)
    (hp : 0 < power) (s : ScoredObs)
    (hs : s ∈ selectNearest dist df target pollutant y m d hr n)
    (h0 : s.distance_km = 0) :
    PredictPollutant dist df target n pollutant y m d hr power = Except.ok PyFloat.nan := by
  obtain ⟨o, ho, _⟩ := mem_selectNearest hs
  have hne : (df.filter (matchesQuery pollutant y m d hr)).isEmpty = false := by
    cases hfe : df.filter (matchesQuery pollutant y m d hr) with
    | nil => rw [hfe] at ho; cases ho
    | cons a l => rfl
  have hany : (nsmallestByDistance n ((df.filter (matchesQuery pollutant y m d hr)).map
      (scoreObs dist target))).any (fun s => decide (s.distance_km ^ power = 0)) = true := by
    rw [List.any_eq_true]
    refine ⟨s, hs, ?_⟩
    rw [h0, zero_pow (Nat.pos_iff_ne_zero.mp hp)]
    exact decide_eq_true rfl
  simp only [PredictPollutant, hne, Bool.false_eq_true, if_false, idw_prediction, hany, if_true]

/-- Witness for the amended C3: on the sample dataset with the target at
`obsA`'s coordinates, `obsA` is selected at distance zero and the estimate
is `ok nan`. -/
theorem predict_degenerate_distance_nan_witness :
    0 < 2 ∧ scoreObs sqDist (39, -77) obsA ∈ selectNearest sqDist dfSample (39, -77) pm25 2020 1 1 8 2 ∧
    (scoreObs sqDist (39, -77) obsA).distance_km = 0 ∧
    PredictPollutant sqDist dfSample (39, -77) 2 pm25 2020 1 1 8 2 = Except.ok PyFloat.nan := by
  have hmem : scoreObs sqDist (39, -77) obsA ∈ selectNearest sqDist dfSample (39, -77) pm25 2020 1 1 8 2 := by
    norm_num [selectNearest, nsmallestByDistance, dfSample, obsA, obsB, obsC, matchesQuery,
      pm25, scoreObs, sqDist, List.insertionSort, List.orderedInsert, distLE]
  have h0 : (scoreObs sqDist (39, -77) obsA).distance_km = 0 := by
    norm_num [scoreObs, sqDist, obsA]
  exact ⟨by decide, hmem, h0,
    predict_degenerate_distance_nan sqDist dfSample (39, -77) 2 pm25 2020 1 1 8 2
      (by decide) (scoreObs sqDist (39, -77) obsA) hmem h0⟩

/-- **C4**.  If the dataset contains exactly one observation matching the
queried pollutant and timestamp, `ParityPlot`'s leave-one-out loop collects
zero `(true, predicted)` pairs — the one row's reduced pool is empty, so
`PredictPollutant` raises and the row is skipped — and computing the metric
on that empty collection is an explicit `ValueError` (the spec's
`EmptyValidationSet`), not a NaN metric. -/
theorem parity_single_observation (dist : ℚ × ℚ → ℚ × ℚ → ℚ) (df : List Obs)
    (pollutant : String) (y m d hr : Int) (n power : ℕ) (o : Obs)
    (h1 : df.filter (matchesQuery pollutant y m d hr) = [o]) :
    parityPairs dist df pollutant y m d hr n power = [] ∧
    mean_absolute_error
      ((parityPairs dist df pollutant y m d hr n power).map Prod.fst)
      ((parityPairs dist df pollutant y m d hr n power).map Prod.snd) =
      Except.error PyErr.valueError := by
  have hp : parityPairs dist df pollutant y m d hr n power = [] := by
    rw [parityPairs, h1]
    rfl
  exact ⟨hp, by rw [hp]; rfl⟩

/-- Witness for C4: on the one-row dataset `dfSingle`, the validator
collects zero pairs and the metric computation on them is an error. -/
theorem parity_single_observation_witness :
    dfSingle.filter (matchesQuery pm25 2020 1 1 8) = [obsA] ∧
    parityPairs sqDist dfSingle pm25 2020 1 1 8 4 2 = [] ∧
    mean_absolute_error
      ((parityPairs sqDist dfSingle pm25 2020 1 1 8 4 2).map Prod.fst)
      ((parityPairs sqDist dfSingle pm25 2020 1 1 8 4 2).map Prod.snd) =
      Except.error PyErr.valueError :=
  ⟨by decide, parity_single_observation sqDist dfSingle pm25 2020 1 1 8 4 2 obsA (by decide)⟩

/-- Dropping one element on which `f` yields nothing does not change a
`filterMap`. -/
lemma filterMap_eq_filterMap_of_none {α β : Type} [DecidableEq α] (l : List α)
    (f : α → Option β) (i : α) (hf : f i = none) :
    l.filterMap f = (l.filter (fun j => decide (j ≠ i))).filterMap f := by
  induction l with
  | nil => rfl
  | cons a l ih =>
    by_cases hai : a = i
    · subst hai
      rw [List.filterMap_cons, hf, List.filter_cons, if_neg (by simp)]
      exact ih
    · rw [List.filter_cons, if_pos (by simp [hai]), List.filterMap_cons, List.filterMap_cons]
      cases hfa : f a with
      | none => exact ih
      | some b => rw [ih]

/-- **C7**.  A failure raised while processing one observation of the
leave-one-out loop is caught and that observation is skipped: the collected
pairs are exactly those produced by the remaining row indices, so a single
unresolvable row never aborts the whole validation run. -/
theorem parity_row_failure_skipped (dist : ℚ × ℚ → ℚ × ℚ → ℚ) (df : List Obs)
    (pollutant : String) (y m d hr : Int) (n power : ℕ) (i : ℕ) (o : Obs) (e : PyErr)
    (ho : (df.filter (matchesQuery pollutant y m d hr)).get? i = some o)
    (he : PredictPollutant dist ((df.filter (matchesQuery pollutant y m d hr)).eraseIdx i)
      (o.latitude, o.longitude) n pollutant y m d hr power = Except.error e) :
    parityPairs dist df pollutant y m d hr n power =
      ((List.range (df.filter (matchesQuery pollutant y m d hr)).length).filter
        (fun j => decide (j ≠ i))).filterMap
        (parityStep dist pollutant y m d hr n power (df.filter (matchesQuery pollutant y m d hr))) := by
  rw [parityPairs]
  refine filterMap_eq_filterMap_of_none _ _ i ?_
  simp only [parityStep, ho, he]

/-- Witness for C7: on the one-row dataset, the single row's prediction
raises (empty reduced pool), the row is skipped, and the loop yields the
pairs of the remaining (zero) rows. -/
theorem parity_row_failure_skipped_witness :
    (dfSingle.filter (matchesQuery pm25 2020 1 1 8)).get? 0 = some obsA ∧
    PredictPollutant sqDist ((dfSingle.filter (matchesQuery pm25 2020 1 1 8)).eraseIdx 0)
      (obsA.latitude, obsA.longitude) 4 pm25 2020 1 1 8 2 = Except.error PyErr.valueError ∧
    parityPairs sqDist dfSingle pm25 2020 1 1 8 4 2 =
      ((List.range (dfSingle.filter (matchesQuery pm25 2020 1 1 8)).length).filter
        (fun j => decide (j ≠ 0))).filterMap
        (parityStep sqDist pm25 2020 1 1 8 4 2 (dfSingle.filter (matchesQuery pm25 2020 1 1 8))) :=
  ⟨by decide, by decide,
    parity_row_failure_skipped sqDist dfSingle pm25 2020 1 1 8 4 2 0 obsA PyErr.valueError
      (by decide) (by decide)⟩

/-- Witness for C5: two sensors at distances 1 and 4 both reporting `obsA`'s
value 5 give estimate 5; and on the one-row dataset with `n_sensors = 1`
the estimator hands back `obsA.value` unchanged. -/
theorem idw_constant_values_and_roundtrip_witness :
    idw_prediction [⟨obsA, 1⟩, ⟨obsA, 4⟩] 2 = PyFloat.num 5 ∧
    PredictPollutant sqDist dfSingle (39, -76) 1 pm25 2020 1 1 8 2 =
      Except.ok (PyFloat.num obsA.value) :=
  ⟨idw_constant_values_and_roundtrip.1 [⟨obsA, 1⟩, ⟨obsA, 4⟩] 2 5 (by decide)
      (by decide) (by decide),
    idw_constant_values_and_roundtrip.2 sqDist dfSingle (39, -76) pm25 2020 1 1 8 2 obsA
      (by decide) (by norm_num [sqDist, obsA])⟩

/-- Witness for C6: scaling the distances 1 and 2 by the factor 3 leaves
the two-sensor estimate unchanged. -/
theorem idw_scale_invariance_witness :
    idw_prediction ([⟨obsA, 1⟩, ⟨obsB, 2⟩].map (scaleDist 3)) 2 =
      idw_prediction [⟨obsA, 1⟩, ⟨obsB, 2⟩] 2 :=
  idw_scale_invariance [⟨obsA, 1⟩, ⟨obsB, 2⟩] 2 3 (by decide) (by decide) (by decide)

/-- Witness for C10: the two-sensor estimate from values 5 and 9 is a
number bounded by every lower and upper bound of those values. -/
theorem idw_within_observed_bounds_witness :
    ∃ q, idw_prediction [⟨obsA, 1⟩, ⟨obsB, 2⟩] 2 = PyFloat.num q ∧
      (∀ lo, (∀ s ∈ [(⟨obsA, 1⟩ : ScoredObs), ⟨obsB, 2⟩], lo ≤ s.obs.value) → lo ≤ q) ∧
      (∀ hi, (∀ s ∈ [(⟨obsA, 1⟩ : ScoredObs), ⟨obsB, 2⟩], s.obs.value ≤ hi) → q ≤ hi) :=
  idw_within_observed_bounds [⟨obsA, 1⟩, ⟨obsB, 2⟩] 2 (by decide) (by decide)

/-!
### The frame claim: the caller's DataFrame is never mutated
-/

lemma heapExtends_refl (h : List Frame) : HeapExtends h h :=
  ⟨le_refl _, fun _ _ => rfl⟩

lemma HeapExtends.trans {h1 h2 h3 : List Frame} (a : HeapExtends h1 h2)
    (b : HeapExtends h2 h3) : HeapExtends h1 h3 :=
  ⟨le_trans a.1 b.1, fun i hi => (b.2 i (lt_of_lt_of_le hi a.1)).trans (a.2 i hi)⟩

lemma heapExtends_append (h l : List Frame) : HeapExtends h (h ++ l) :=
  ⟨by simp, fun _ hi => by
    rw [List.get?_eq_getElem?, List.get?_eq_getElem?, List.getElem?_append_left hi]⟩

lemma heapExtends_set_of {h h' : List Frame} (hx : HeapExtends h h') {j : ℕ}
    (hj : h.length ≤ j) (f : Frame) : HeapExtends h (h'.set j f) := by
  refine ⟨by simpa using hx.1, fun i hi => ?_⟩
  have h2 := hx.2 i hi
  rw [List.get?_eq_getElem?] at h2 ⊢
  rw [List.getElem?_set_ne (Ne.symm (ne_of_lt (lt_of_lt_of_le hi hj)))]
  exact h2

/-- Coherence of the two embeddings of the single-point estimate: the heap
version returns the same value as the plain one, run on the rows of the
frame the id points at. -/
lemma predictPollutantHeap_fst (dist : ℚ × ℚ → ℚ × ℚ → ℚ) (heap : List Frame) (dfId : ℕ)
    (target : ℚ × ℚ) (n : ℕ) (pollutant : String) (y m d hr : Int) (power : ℕ) :
    (PredictPollutantHeap dist heap dfId target n pollutant y m d hr power).1 =
      PredictPollutant dist (heapGet heap dfId).rows target n pollutant y m d hr power := by
  by_cases hc : (((heapGet heap dfId).rows.filter (matchesQuery pollutant y m d hr)).isEmpty = true)
  · simp only [PredictPollutantHeap, PredictPollutant, if_pos hc]
  · simp only [PredictPollutantHeap, PredictPollutant, if_neg hc]

/-- A single-point estimate only ever grows the heap with fresh frames:
every frame the caller already held — in particular the input dataset — is
untouched (the one in-place mutation, the `distance_km` column assignment,
hits the `.copy()` made inside the call). -/
lemma predictPollutantHeap_extends (dist : ℚ × ℚ → ℚ × ℚ → ℚ) (heap : List Frame)
    (dfId : ℕ) (target : ℚ × ℚ) (n : ℕ) (pollutant : String) (y m d hr : Int) (power : ℕ) :
    HeapExtends heap (PredictPollutantHeap dist heap dfId target n pollutant y m d hr power).2 := by
  simp only [PredictPollutantHeap, heapAlloc, heapSet]
  by_cases hc : (((heapGet heap dfId).rows.filter (matchesQuery pollutant y m d hr)).isEmpty = true)
  · rw [if_pos hc]
    exact (heapExtends_append _ _).trans (heapExtends_append _ _)
  · rw [if_neg hc]
    exact ((heapExtends_set_of ((heapExtends_append _ _).trans (heapExtends_append _ _))
      (by simp) _).trans (heapExtends_append _ _))

/-- The leave-one-out loop only ever grows the heap with fresh frames. -/
lemma parityLoopHeap_extends (dist : ℚ × ℚ → ℚ × ℚ → ℚ) (pollutant : String)
    (y m d hr : Int) (n power : ℕ) (filtered : List Obs) (idxs : List ℕ) :
    ∀ heap : List Frame,
      HeapExtends heap (parityLoopHeap dist pollutant y m d hr n power filtered idxs heap).2 := by
  induction idxs with
  | nil => exact fun heap => heapExtends_refl heap
  | cons i rest ih =>
    intro heap
    rw [parityLoopHeap]
    cases hg : filtered.get? i with
    | none => exact ih heap
    | some o =>
      exact ((heapExtends_append _ _).trans
        (predictPollutantHeap_extends dist _ _ _ _ _ _ _ _ _ _)).trans (ih _)

/-- **C9**.  Neither the single-point estimate nor the validator mutates
the caller's dataset: with pandas object identity made explicit as a heap
of frames, the frame the caller passed in (and every other pre-existing
frame) is unchanged after either call — the core only allocates derived
frames, and the added `distance_km` column lives on a copy. -/
theorem core_never_mutates_caller_frame (dist : ℚ × ℚ → ℚ × ℚ → ℚ) (heap : List Frame)
    (dfId : ℕ) (target : ℚ × ℚ) (n : ℕ) (pollutant : String) (y m d hr : Int) (power : ℕ)
    (i : ℕ) (hi : i < heap.length) :
    (PredictPollutantHeap dist heap dfId target n pollutant y m d hr power).2.get? i = heap.get? i ∧
    (ParityPlotHeap dist heap dfId pollutant y m d hr n power).2.get? i = heap.get? i := by
  constructor
  · exact (predictPollutantHeap_extends dist heap dfId target n pollutant y m d hr power).2 i hi
  · have hx : HeapExtends heap (ParityPlotHeap dist heap dfId pollutant y m d hr n power).2 := by
      simp only [ParityPlotHeap, heapAlloc]
      exact (heapExtends_append _ _).trans (parityLoopHeap_extends _ _ _ _ _ _ _ _ _ _ _)
    exact hx.2 i hi

/-- Witness for C9: running both entry points on a one-frame heap holding
the sample dataset leaves that frame unchanged. -/
theorem core_never_mutates_caller_frame_witness :
    (PredictPollutantHeap sqDist heapSample 0 (39, -76) 2 pm25 2020 1 1 8 2).2.get? 0 =
      heapSample.get? 0 ∧
    (ParityPlotHeap sqDist heapSample 0 pm25 2020 1 1 8 2 2).2.get? 0 = heapSample.get? 0 :=
  core_never_mutates_caller_frame sqDist heapSample 0 (39, -76) 2 pm25 2020 1 1 8 2 0 (by decide)

end AirQuality
